import Mathlib

/-!
Verification of the modem connection rotator service (src/rotator.py).

The Python source is shallowly embedded: every external effect (filesystem
reads in sysfs, subprocess invocations, probe commands, clock reads) is an
explicit parameter of the embedded function, supplied through environment
structures.  A primitive that can raise a Python exception is modelled with
`Except String`, and each `try/except` of the source is translated into the
corresponding handling of the `Except` value.  Machine behaviour that the
source observes (exit codes, stdout text) is carried as plain `Nat`/`String`
data.
-/

namespace Rotator

/-!
Python string primitives, implemented by structural recursion over `List
Char` so that every concrete instance reduces inside the kernel.  The fueled
functions take the length of the scanned list as fuel; one fuel unit is spent
per consumed character, so the fuel never runs out at the given calls.
-/

/-- Test that the first list starts with the second. -/
def charsStartWith : List Char → List Char → Bool
  | _, [] => true
  | [], _ :: _ => false
  | c :: cs, p :: ps => c == p && charsStartWith cs ps

/-- Test that the second list occurs inside the first. -/
def charsContain : List Char → List Char → Bool
  | [], needle => charsStartWith [] needle
  | c :: rest, needle => charsStartWith (c :: rest) needle || charsContain rest needle

/-- Split on a nonempty separator, Python `str.split(sep)` semantics: the
piece collected so far is closed at each separator occurrence, scanning left
to right without overlap. -/
def charsSplitOnFuel (sep : List Char) : Nat → List Char → List Char → List (List Char)
  | _, [], acc => [acc.reverse]
  | 0, l, acc => [acc.reverse ++ l]
  | fuel + 1, c :: rest, acc =>
    if !sep.isEmpty && charsStartWith (c :: rest) sep then
      acc.reverse :: charsSplitOnFuel sep fuel ((c :: rest).drop sep.length) []
    else
      charsSplitOnFuel sep fuel rest (c :: acc)

/-- Embedding of Python `s.split(sep)` for a nonempty separator. -/
def pySplitOn (s sep : String) : List String :=
  (charsSplitOnFuel sep.data s.data.length s.data []).map String.mk

/-- Whitespace tokenizer, Python `str.split()` with no argument: split on
runs of whitespace, dropping empty pieces. -/
def charsSplitWsAux : List Char → List Char → List (List Char)
  | [], acc => if acc.isEmpty then [] else [acc.reverse]
  | c :: rest, acc =>
    if c.isWhitespace then
      if acc.isEmpty then charsSplitWsAux rest []
      else acc.reverse :: charsSplitWsAux rest []
    else charsSplitWsAux rest (c :: acc)

/-- Embedding of Python `s.split()`. -/
def pySplitWs (s : String) : List String :=
  (charsSplitWsAux s.data []).map String.mk

/-- Replace every non-overlapping occurrence of a nonempty pattern, scanning
left to right: Python `s.replace(pat, rep)`. -/
def charsReplaceFuel (pat rep : List Char) : Nat → List Char → List Char
  | _, [] => []
  | 0, l => l
  | fuel + 1, c :: rest =>
    if !pat.isEmpty && charsStartWith (c :: rest) pat then
      rep ++ charsReplaceFuel pat rep fuel ((c :: rest).drop pat.length)
    else
      c :: charsReplaceFuel pat rep fuel rest

/-- Embedding of Python `s.replace(pat, rep)` for a nonempty pattern. -/
def pyReplace (s pat rep : String) : String :=
  String.mk (charsReplaceFuel pat.data rep.data s.data.length s.data)

/-- Substring test, the embedding of the Python `needle in haystack`
operator. -/
def strContains (haystack needle : String) : Bool :=
  charsContain haystack.data needle.data

/-- Embedding of Python `s.strip()`: drop whitespace from both ends. -/
def pyStrip (s : String) : String :=
  String.mk (((s.data.dropWhile Char.isWhitespace).reverse.dropWhile
    Char.isWhitespace).reverse)

/-- Embedding of Python `s.upper()`. -/
def pyUpper (s : String) : String :=
  String.mk (s.data.map Char.toUpper)

/-- Embedding of Python `s.startswith(pre)`. -/
def pyStartsWith (s pre : String) : Bool :=
  charsStartWith s.data pre.data

/-- Join pieces with a separator, the inverse of splitting. -/
def joinWith (sep : String) : List String → String
  | [] => ""
  | [x] => x
  | x :: y :: rest => x ++ sep ++ joinWith sep (y :: rest)

/-- Embedding of `os.path.dirname`: drop the final `/`-separated component. -/
def dirname (p : String) : String :=
  joinWith "/" (pySplitOn p "/").dropLast

/-- Embedding of the Python statement `a, b = s.split(':')`, which raises
unless the split yields exactly two pieces; `none` models the raise. -/
def pySplit2 (s : String) (sep : String) : Option (String × String) :=
  match pySplitOn s sep with
  | [a, b] => some (a, b)
  | _ => none

/-- First hit of an option-valued function over a list: the embedding of a
Python `for` loop whose body either `return`s a value or `continue`s. -/
def firstSome (f : α → Option β) : List α → Option β
  | [] => none
  | x :: xs =>
    match f x with
    | some r => some r
    | none => firstSome f xs

/-- The sysfs / subprocess environment that `find_usb_modem_path` reads.
`pathExists` embeds `os.path.exists`; `readFile` embeds `open(..).read()`
(`Except.error` models a raised exception); `findStdout` and `lsStdout` are
the stdout of the `find` and `ls -la` subprocess calls, with `Except.error`
modelling a raise of `subprocess.run` (for example a timeout). -/
structure UsbFs where
  pathExists : String → Bool
  readFile : String → Except String String
  findStdout : Except String String
  lsStdout : Except String String

/-- Per-device check shared by method 1 (likely device list) and method 3
(scan of the `ls` listing) of `find_usb_modem_path` (src/rotator.py lines
64-88 and 148-169): build the sysfs paths for a device name, require both id
files to exist, read and compare them, and return the device path only when
the `authorized` file also exists.  A raised read is caught by the per-device
`try` and turns into `continue` (`none` here). -/
def checkLikelyDevice (fs : UsbFs) (vendor_id product_id device_name : String) :
    Option String :=
  let device_path := "/sys/bus/usb/devices/" ++ device_name
  let vendor_file := device_path ++ "/idVendor"
  let product_file := device_path ++ "/idProduct"
  let auth_file := device_path ++ "/authorized"
  if fs.pathExists vendor_file && fs.pathExists product_file then
    match fs.readFile vendor_file with
    | .error _ => none
    | .ok rawVendor =>
      match fs.readFile product_file with
      | .error _ => none
      | .ok rawProduct =>
        if pyStrip rawVendor == vendor_id && pyStrip rawProduct == product_id then
          if fs.pathExists auth_file then some device_path else none
        else none
  else none

/-- Per-file check of method 2 of `find_usb_modem_path` (src/rotator.py lines
98-129): for one `idVendor` path from the `find` output, read it, compare the
vendor id, read the sibling `idProduct`, compare, and return the directory
when its `authorized` file exists, else the parent directory when the parent
has an `authorized` file.  Raised reads are caught and become `continue`. -/
def checkVendorFile (fs : UsbFs) (vendor_id product_id vendor_file : String) :
    Option String :=
  if vendor_file == "" then none
  else
    match fs.readFile vendor_file with
    | .error _ => none
    | .ok rawVendor =>
      if pyStrip rawVendor == vendor_id then
        let product_file := pyReplace vendor_file "idVendor" "idProduct"
        match fs.readFile product_file with
        | .error _ => none
        | .ok rawProduct =>
          if pyStrip rawProduct == product_id then
            let usb_device_path := dirname vendor_file
            if fs.pathExists (usb_device_path ++ "/authorized") then
              some usb_device_path
            else
              let parent_path := dirname usb_device_path
              if fs.pathExists (parent_path ++ "/authorized") then some parent_path
              else none
          else none
      else none

/-- One line of the `ls -la` output in method 3 of `find_usb_modem_path`
(src/rotator.py lines 141-169): lines holding an arrow but no colon are
treated as device symlinks; token 8 is the device name, filtered against the
exclusion list and the `1-` pattern, then checked like method 1. -/
def scanLsLine (fs : UsbFs) (vendor_id product_id line : String) : Option String :=
  if strContains line "->" && !strContains line ":" then
    let parts := pySplitWs line
    if parts.length ≥ 9 then
      match parts[8]? with
      | none => none
      | some device_name =>
        if !(["usb1", "usb2", ".", ".."].contains device_name)
            && pyStartsWith device_name "1-" then
          checkLikelyDevice fs vendor_id product_id device_name
        else none
    else none
  else none

/-- Embedding of `ModemRotator.find_usb_modem_path` (src/rotator.py lines
54-177).  The outer `try` catches every exception and returns `None`, so a
raise of the `find` subprocess yields `none`; a raise of the `ls` subprocess
is caught by the inner `try` around method 3 and also falls through to the
final `return None`. -/
def find_usb_modem_path (fs : UsbFs) (vendor_product : String) : Option String :=
  match pySplit2 vendor_product ":" with
  | none => none
  | some (vendor_id, product_id) =>
    match firstSome (checkLikelyDevice fs vendor_id product_id) ["1-1.2", "1-1", "2-1"] with
    | some p => some p
    | none =>
      match fs.findStdout with
      | .error _ => none
      | .ok findOut =>
        match firstSome (checkVendorFile fs vendor_id product_id)
            (pySplitOn (pyStrip findOut) "\n") with
        | some p => some p
        | none =>
          match fs.lsStdout with
          | .error _ => none
          | .ok lsOut =>
            match firstSome (scanLsLine fs vendor_id product_id) (pySplitOn lsOut "\n") with
            | some p => some p
            | none => none

/-- The actuation mechanisms named by the specification for the disconnect
fallback chain, plus the two mechanisms the code actually invokes (USB
de-authorization and the rfkill kill-switch). -/
inductive Mechanism where
  | mmDisconnect
  | nmDeviceDisconnect
  | ifaceDown
  | usbDeauth
  | rfkillBlock
deriving DecidableEq

/-- Keyword filter applied to one `lsusb` line (src/rotator.py lines 244-247):
the upper-cased line must hold one of the known modem vendor strings. -/
def modemKeywordLine (line : String) : Bool :=
  let u := pyUpper line
  strContains u "SIMCOM" || strContains u "SIM7600" || strContains u "QUALCOMM"
    || strContains u "SIMTECH" || strContains u "OPTION"

/-- Outcome of the `lsusb` scan loop: a vendor:product id was extracted, the
id extraction raised an IndexError, or no matching line was found. -/
inductive VpScan where
  | found (vp : String)
  | raised
  | notFound
deriving DecidableEq

/-- Embedding of the `lsusb` scan loop (src/rotator.py lines 243-254): the
first line that passes the keyword filter and holds the marker `" ID "` has
the token after the marker extracted as the vendor:product id (`split()[0]`
raises when nothing follows the marker); lines passing the keyword filter
without the marker are skipped without breaking the loop. -/
def scanLsusb : List String → VpScan
  | [] => .notFound
  | line :: rest =>
    if modemKeywordLine line && strContains line " ID " then
      match (pySplitOn line " ID ")[1]? with
      | none => .raised
      | some seg =>
        match pySplitWs seg with
        | [] => .raised
        | tok :: _ => .found tok
    else scanLsusb rest

/-- Environment of `disconnect_modem`: stdout of `lsusb` (`Except.error`
models a raise), the sysfs view used by `find_usb_modem_path`, the exit code
of `sudo rfkill block wwan`, and the exit code of the shell that writes `0`
into a given `authorized` file. -/
structure DiscEnv where
  lsusbStdout : Except String String
  fs : UsbFs
  rfkillBlockRc : Except String Nat
  authWriteRc : String → Except String Nat

/-- Embedding of `ModemRotator.disconnect_modem` (src/rotator.py lines
230-305).  The first component is the returned boolean; the second is
instrumentation recording which actuation mechanisms were invoked, in order.
Control flow of the source: find the modem id in the `lsusb` output; when the
id or the sysfs path cannot be found, fall back to `rfkill block wwan`;
otherwise write `0` into the `authorized` file of the located device.  Every
raise inside the body is caught (lines 299-305) and yields `False`. -/
def disconnect_modem (env : DiscEnv) : Bool × List Mechanism :=
  match env.lsusbStdout with
  | .error _ => (false, [])
  | .ok out =>
    match scanLsusb (pySplitOn out "\n") with
    | .raised => (false, [])
    | .notFound =>
      match env.rfkillBlockRc with
      | .error _ => (false, [Mechanism.rfkillBlock])
      | .ok rc => (rc == 0, [Mechanism.rfkillBlock])
    | .found vendor_product =>
      match find_usb_modem_path env.fs vendor_product with
      | none =>
        match env.rfkillBlockRc with
        | .error _ => (false, [Mechanism.rfkillBlock])
        | .ok rc => (rc == 0, [Mechanism.rfkillBlock])
      | some usb_info =>
        let auth_file := usb_info ++ "/authorized"
        match env.authWriteRc auth_file with
        | .error _ => (false, [Mechanism.usbDeauth])
        | .ok rc => (rc == 0, [Mechanism.usbDeauth])

/-- Environment of `connect_modem`: stdout of `lsusb`, the sysfs view, the
exit code of `sudo rfkill unblock wwan`, and the exit code of the shell that
writes `1` into a given `authorized` file. -/
structure ConnEnv where
  lsusbStdout : Except String String
  fs : UsbFs
  rfkillUnblockRc : Except String Nat
  authWriteRc : String → Except String Nat

/-- Embedding of `ModemRotator.connect_modem` (src/rotator.py lines 307-387):
the mirror image of `disconnect_modem` with `rfkill unblock` and a write of
`1` into the `authorized` file.  The `time.sleep(8)` / `time.sleep(10)`
settle waits after a successful actuation only consume wall time and are not
observable in the returned boolean, so they are not represented. -/
def connect_modem (env : ConnEnv) : Bool :=
  match env.lsusbStdout with
  | .error _ => false
  | .ok out =>
    match scanLsusb (pySplitOn out "\n") with
    | .raised => false
    | .notFound =>
      match env.rfkillUnblockRc with
      | .error _ => false
      | .ok rc => rc == 0
    | .found vendor_product =>
      match find_usb_modem_path env.fs vendor_product with
      | none =>
        match env.rfkillUnblockRc with
        | .error _ => false
        | .ok rc => rc == 0
      | some usb_info =>
        let auth_file := usb_info ++ "/authorized"
        match env.authWriteRc auth_file with
        | .error _ => false
        | .ok rc => rc == 0

/-- JSON scalar values, the payload type of the configuration dictionary. -/
inductive JVal where
  | nat (n : Nat)
  | str (s : String)
  | bool (b : Bool)
deriving DecidableEq

/-- Python truthiness of a configuration value, used by
`if CONFIG.get("aggressive_rotation", False):`. -/
def JVal.truthy : JVal → Bool
  | .nat n => n != 0
  | .str s => s != ""
  | .bool b => b

/-- Seconds accepted by `time.sleep` and by the numeric comparison of the
poll loop: integers and booleans (Python booleans are integers) are valid,
a string raises a TypeError (`none`). -/
def JVal.sleepSeconds : JVal → Option Nat
  | .nat n => some n
  | .bool b => some (if b then 1 else 0)
  | .str _ => none

/-- The built-in `CONFIG` dictionary literal (src/rotator.py lines 18-25). -/
def baseConfig : List (String × JVal) :=
  [("port", .nat 8080),
   ("interface", .str "cdc-wdm0"),
   ("disconnect_delay", .nat 1),
   ("reconnect_timeout", .nat 8),
   ("log_level", .str "INFO"),
   ("modem_reset_delay", .nat 1)]

/-- Dictionary lookup over an association list. -/
def dictGet (d : List (String × JVal)) (k : String) : Option JVal :=
  (d.find? (fun kv => kv.1 == k)).map Prod.snd

/-- Embedding of `CONFIG.update(user_config)` (src/rotator.py lines 29-33) as
a lookup function: a key present in the user configuration overrides the
built-in value, every other built-in key keeps its value.  `update` never
removes keys. -/
def effConfig (user : List (String × JVal)) : String → Option JVal :=
  fun k => (dictGet user k).orElse (fun _ => dictGet baseConfig k)

/-- Probe environment of `get_connection_status`: for a given interface name,
the exit code and stdout of `ip link show` and `ip addr show`
(`Except.error` models a raise, for example a subprocess timeout), and the
exit code of the `ping` reachability probe (its raise is swallowed by a bare
`except`). -/
structure ProbeEnv where
  ipLink : String → Except String (Nat × String)
  ipAddr : String → Except String (Nat × String)
  pingRc : Except String Nat

/-- The rotation tracking state of `ModemRotator` (src/rotator.py lines
51-52): `last_rotation` starts as `None`, `rotation_count` at `0`. -/
structure RotState where
  last_rotation : Option String
  rotation_count : Nat
deriving DecidableEq

/-- The status dictionary built by `get_connection_status` (src/rotator.py
lines 217-225). -/
structure ConnStatus where
  iface : String
  nm_device : JVal
  interface_up : Bool
  ip_address : Option String
  internet_connected : Bool
  last_rotation : Option String
  rotation_count : Nat
deriving DecidableEq

/-- Result of `get_connection_status`: the status dictionary, or the
`{"error": ...}` dictionary produced by the outer exception handler
(src/rotator.py lines 226-228). -/
inductive StatusResult where
  | ok (s : ConnStatus)
  | err (msg : String)
deriving DecidableEq

/-- IP extraction loop of `get_connection_status` (src/rotator.py lines
200-204): the first stdout line holding `"inet "` but not `"inet 127."` has
token 1 taken and cut at the first slash; a line with fewer than two tokens
raises an IndexError, which escapes to the outer handler. -/
def extractIp : List String → Except String (Option String)
  | [] => .ok none
  | line :: rest =>
    if strContains line "inet " && !strContains line "inet 127." then
      match pySplitWs (pyStrip line) with
      | _ :: second :: _ => .ok (some ((pySplitOn second "/").headD ""))
      | _ => .error "IndexError: list index out of range"
    else extractIp rest

/-- The block `Get IP address if interface is up` of `get_connection_status`
(src/rotator.py lines 192-204): when the interface is up, run `ip addr show`
on it and extract the first non-loopback inet address from a zero-exit
output; raises of the subprocess or of the extraction escape to the outer
handler. -/
def ipFetch (env : ProbeEnv) (network_interface : String) (interface_up : Bool) :
    Except String (Option String) :=
  if interface_up then
    match env.ipAddr network_interface with
    | .error e => .error e
    | .ok addrRes =>
      if addrRes.1 == 0 then extractIp (pySplitOn addrRes.2 "\n") else .ok none
  else .ok none

/-- Embedding of `ModemRotator.get_connection_status` (src/rotator.py lines
179-228).  The probed interface is the hardcoded string `"wwan0"` (line 183);
the configured device name is looked up only to fill the `nm_device` field of
the result (line 219).  A raise of `ip link` or `ip addr` or of the IP
extraction reaches the outer handler and yields the error dictionary; a raise
of `ping` is swallowed and leaves reachability `false`. -/
def get_connection_status (cfg : String → Option JVal) (st : RotState)
    (env : ProbeEnv) : StatusResult :=
  let network_interface := "wwan0"
  match env.ipLink network_interface with
  | .error e => .err e
  | .ok linkRes =>
    let interface_up := linkRes.1 == 0 && strContains linkRes.2 "UP"
    match ipFetch env network_interface interface_up with
    | .error e => .err e
    | .ok ip_address =>
      let internet_connected :=
        match env.pingRc with
        | .error _ => false
        | .ok prc => prc == 0
      match cfg "interface" with
      | none => .err "KeyError: interface"
      | some dev =>
        .ok { iface := network_interface
              nm_device := dev
              interface_up := interface_up
              ip_address := ip_address
              internet_connected := internet_connected
              last_rotation := st.last_rotation
              rotation_count := st.rotation_count }

/-- The settle-delay value chosen between disconnect and reconnect
(src/rotator.py lines 407-413): under a truthy `aggressive_rotation` flag the
value of `CONFIG.get("modem_reset_delay", 10)`, otherwise the value of
`CONFIG["disconnect_delay"]`, whose absence raises a KeyError. -/
def settleDelayValue (cfg : String → Option JVal) : Except String JVal :=
  if ((cfg "aggressive_rotation").getD (JVal.bool false)).truthy then
    .ok ((cfg "modem_reset_delay").getD (JVal.nat 10))
  else
    match cfg "disconnect_delay" with
    | some v => .ok v
    | none => .error "KeyError: disconnect_delay"

/-- The settle phase of one rotation: look up the delay, sleep it
(`time.sleep` raises a TypeError on a string value and may be interrupted,
modelled by the `sleepRaises` injection point of the environment). -/
def settlePhase (cfg : String → Option JVal) (sleepRaises : Option String) :
    Except String Unit :=
  match settleDelayValue cfg with
  | .error e => .error e
  | .ok v =>
    match v.sleepSeconds with
    | none => .error "TypeError: sleep"
    | some _ =>
      match sleepRaises with
      | some e => .error e
      | none => .ok ()

/-- The verification poll loop of `rotate_connection` (src/rotator.py lines
425-430), with time in whole seconds: each iteration sleeps one second and
then polls; the loop condition re-checks the elapsed time against the
timeout.  `pollLoop reach elapsed fuel` returns the elapsed time at loop
exit, where `fuel` is the remaining time budget. -/
def pollLoop (reach : Nat → Bool) : Nat → Nat → Nat
  | elapsed, 0 => elapsed
  | elapsed, fuel + 1 =>
    if reach (elapsed + 1) then elapsed + 1
    else pollLoop reach (elapsed + 1) fuel

/-- Environment of one `rotate_connection` call: `probes k` is the probe
environment seen by the k-th `get_connection_status` call of the cycle,
`disc` and `conn` the actuation environments, `settleSleepRaises` an optional
exception injected into the settle sleep, and `nowIso` the value of
`datetime.now().isoformat()` at the tracking update. -/
structure RotEnv where
  probes : Nat → ProbeEnv
  disc : DiscEnv
  conn : ConnEnv
  settleSleepRaises : Option String
  nowIso : String

/-- Reachability as observed by the poll loop: `status.get("internet_connected")`
on the k-th status snapshot; the error dictionary has no such key, and
`dict.get` then yields the falsy `None`. -/
def pollReach (cfg : String → Option JVal) (env : RotEnv) (st : RotState) :
    Nat → Bool := fun k =>
  match get_connection_status cfg st (env.probes k) with
  | .ok s => s.internet_connected
  | .err _ => false

/-- Result dictionary of `rotate_connection`: the failure shape
`{"success": False, "error": ..., "status": ...}` (also produced by the
outer exception handler) or the success shape of src/rotator.py lines
439-446. -/
inductive RotResult where
  | fail (error : String) (status : StatusResult)
  | ok (message : String) (initial_status final_status : StatusResult)
      (rotation_time : String) (total_rotations : Nat)
deriving DecidableEq

/-- The `success` field of the result dictionary. -/
def RotResult.success : RotResult → Bool
  | .fail _ _ => false
  | .ok _ _ _ _ _ => true

/-- Embedding of `ModemRotator.rotate_connection` (src/rotator.py lines
389-454), returning the result dictionary and the tracking state after the
call.  The body runs under `self.lock`; serialization across calls is
modelled by sequential composition (`runRotations`) and the lock itself by
the transition system below.  Status snapshots are numbered in call order:
the initial snapshot is call 0; the connect-failure snapshot and the
exception-handler snapshot are call 1 (no other status call precedes them);
poll iteration t reads call t; the final snapshot is the call after poll
exit.  The tracking update (lines 432-434) runs only after disconnect,
settle, connect and the poll loop all completed. -/
def rotate_connection (cfg : String → Option JVal) (env : RotEnv)
    (st : RotState) : RotResult × RotState :=
  let initial_status := get_connection_status cfg st (env.probes 0)
  if !(disconnect_modem env.disc).1 then
    (.fail "Failed to disconnect modem" initial_status, st)
  else
    match settlePhase cfg env.settleSleepRaises with
    | .error e => (.fail e (get_connection_status cfg st (env.probes 1)), st)
    | .ok _ =>
      if !connect_modem env.conn then
        (.fail "Failed to reconnect modem" (get_connection_status cfg st (env.probes 1)), st)
      else
        match cfg "reconnect_timeout" with
        | none =>
          (.fail "KeyError: reconnect_timeout" (get_connection_status cfg st (env.probes 1)), st)
        | some tv =>
          match tv.sleepSeconds with
          | none =>
            (.fail "TypeError: comparison" (get_connection_status cfg st (env.probes 1)), st)
          | some timeout =>
            let exitT := pollLoop (pollReach cfg env st) 0 timeout
            let st' : RotState :=
              { last_rotation := some env.nowIso
                rotation_count := st.rotation_count + 1 }
            let final_status := get_connection_status cfg st' (env.probes (exitT + 1))
            (.ok "Connection rotated successfully" initial_status final_status
              env.nowIso st'.rotation_count, st')

/-- Sequential composition of rotation cycles: the serialization that
`self.lock` enforces on concurrent `rotate_connection` calls. -/
def runRotations (cfg : String → Option JVal) : List RotEnv → RotState → RotState
  | [], st => st
  | e :: es, st => runRotations cfg es (rotate_connection cfg e st).2

/-- Body of an HTTP response of the rotator service. -/
inductive HttpBody where
  | rotation (r : RotResult)
  | notFound (error : String)
deriving DecidableEq

/-- An HTTP response: status code and JSON body. -/
structure HttpResponse where
  code : Nat
  body : HttpBody
deriving DecidableEq

/-- Embedding of `RotatorHandler.do_POST` (src/rotator.py lines 499-512): the
`/rotate` path sends status code 200 and the JSON-encoded result of
`rotate_connection`; every other path sends 404 with an error body. -/
def do_POST (path : String) (cfg : String → Option JVal) (env : RotEnv)
    (st : RotState) : HttpResponse × RotState :=
  if path == "/rotate" then
    let rotated := rotate_connection cfg env st
    ({ code := 200, body := .rotation rotated.1 }, rotated.2)
  else
    ({ code := 404, body := .notFound "Endpoint not found" }, st)

/-- Phases of one request-handling thread with respect to the rotation lock
(src/rotator.py line 50 creates `self.lock`, line 391 is `with self.lock:`):
not yet asking for a rotation, blocked in the lock acquire, inside the locked
rotation body, or past the release. -/
inductive ThreadPhase where
  | idle
  | waiting
  | inCritical
  | finished
deriving DecidableEq

/-- State of two concurrent callers of `rotate_connection` sharing the one
`threading.Lock` of the `ModemRotator` instance; `holder` records which
thread currently holds the lock. -/
structure LockSys where
  t1 : ThreadPhase
  t2 : ThreadPhase
  holder : Option (Fin 2)
deriving DecidableEq

/-- Interleaving semantics of `with self.lock:` for two threads: a thread may
start waiting, may acquire the lock only while no thread holds it, and
releases it when the locked body finishes.  There is no failure transition
out of `waiting`: `threading.Lock.acquire()` blocks, it never rejects. -/
inductive LockStep : LockSys → LockSys → Prop where
  | request1 {s : LockSys} (h : s.t1 = ThreadPhase.idle) :
      LockStep s { s with t1 := ThreadPhase.waiting }
  | acquire1 {s : LockSys} (h : s.t1 = ThreadPhase.waiting) (hfree : s.holder = none) :
      LockStep s { s with t1 := ThreadPhase.inCritical, holder := some 0 }
  | release1 {s : LockSys} (h : s.t1 = ThreadPhase.inCritical) :
      LockStep s { s with t1 := ThreadPhase.finished, holder := none }
  | request2 {s : LockSys} (h : s.t2 = ThreadPhase.idle) :
      LockStep s { s with t2 := ThreadPhase.waiting }
  | acquire2 {s : LockSys} (h : s.t2 = ThreadPhase.waiting) (hfree : s.holder = none) :
      LockStep s { s with t2 := ThreadPhase.inCritical, holder := some 1 }
  | release2 {s : LockSys} (h : s.t2 = ThreadPhase.inCritical) :
      LockStep s { s with t2 := ThreadPhase.finished, holder := none }

/-- Initial state: both handler threads idle, lock free. -/
def lockInit : LockSys :=
  { t1 := ThreadPhase.idle, t2 := ThreadPhase.idle, holder := none }

/-- States reachable from the initial state by interleaved steps. -/
inductive LockReachable : LockSys → Prop where
  | init : LockReachable lockInit
  | step {s s' : LockSys} : LockReachable s → LockStep s s' → LockReachable s'

/-- Lock invariant: a thread is inside the rotation body exactly when it
holds the lock. -/
def LockInv (s : LockSys) : Prop :=
  (s.t1 = ThreadPhase.inCritical ↔ s.holder = some 0)
    ∧ (s.t2 = ThreadPhase.inCritical ↔ s.holder = some 1)

/-- The disconnect fallback chain as the specification words it: a nonempty
prefix of management-daemon disconnect, connection-manager device disconnect,
interface down, and a last-resort mechanism (USB de-authorization or the
kill-switch), each attempted mechanism but the last having failed.  Modelled
from the specification sentence, to be compared with the trace the code
produces. -/
def specDisconnectChain (tr : List Mechanism) : Prop :=
  ∃ last k, (last = Mechanism.usbDeauth ∨ last = Mechanism.rfkillBlock)
    ∧ 1 ≤ k
    ∧ tr = List.take k
        [Mechanism.mmDisconnect, Mechanism.nmDeviceDisconnect, Mechanism.ifaceDown, last]

/-- The effective configuration when no configuration file is present. -/
def cfgBase : String → Option JVal := effConfig []

/-- Freshly constructed tracking state (src/rotator.py lines 51-52). -/
def stInit : RotState := { last_rotation := none, rotation_count := 0 }

/-- A sysfs view holding the modem at the likely location `1-1.2` with id
`1e0e:9001` and an `authorized` control file. -/
def fsSample : UsbFs :=
  { pathExists := fun p =>
      p == "/sys/bus/usb/devices/1-1.2/idVendor"
        || p == "/sys/bus/usb/devices/1-1.2/idProduct"
        || p == "/sys/bus/usb/devices/1-1.2/authorized"
    readFile := fun p =>
      if p == "/sys/bus/usb/devices/1-1.2/idVendor" then .ok "1e0e\n"
      else if p == "/sys/bus/usb/devices/1-1.2/idProduct" then .ok "9001\n"
      else .error "FileNotFoundError"
    findStdout := .ok ""
    lsStdout := .ok "" }

/-- A fully unpopulated sysfs view: no paths exist and every read raises. -/
def fsEmptyReg : UsbFs :=
  { pathExists := fun _ => false
    readFile := fun _ => .error "FileNotFoundError"
    findStdout := .ok ""
    lsStdout := .ok "" }

/-- Disconnect environment of a host whose `lsusb` output shows no modem and
whose `rfkill block wwan` succeeds. -/
def discEnvNoModem : DiscEnv :=
  { lsusbStdout := .ok "Bus 001 Device 001: ID 1d6b:0002 Linux Foundation 2.0 root hub"
    fs := fsEmptyReg
    rfkillBlockRc := .ok 0
    authWriteRc := fun _ => .error "unused" }

/-- Disconnect environment where the modem is absent and `rfkill` also
fails, exhausting the disconnect attempt. -/
def discEnvFail : DiscEnv :=
  { discEnvNoModem with rfkillBlockRc := .ok 1 }

/-- Connect environment where the modem is absent and `rfkill unblock`
fails. -/
def connEnvFail : ConnEnv :=
  { lsusbStdout := .ok "Bus 001 Device 001: ID 1d6b:0002 Linux Foundation 2.0 root hub"
    fs := fsEmptyReg
    rfkillUnblockRc := .ok 1
    authWriteRc := fun _ => .error "unused" }

/-- Connect environment where `rfkill unblock` succeeds. -/
def connEnvOk : ConnEnv :=
  { connEnvFail with rfkillUnblockRc := .ok 0 }

/-- Probe environment of a host whose `wwan0` interface is down and that has
no internet reachability. -/
def probeDown : ProbeEnv :=
  { ipLink := fun _ => .ok (1, "")
    ipAddr := fun _ => .ok (1, "")
    pingRc := .ok 1 }

/-- Probe environment that reports the link down on `wwan0` but up on every
other interface name: probes differ from `probeDown` only away from
`wwan0`. -/
def probeOffWwan : ProbeEnv :=
  { ipLink := fun i => if i == "wwan0" then .ok (1, "") else .ok (0, "UP")
    ipAddr := fun i => if i == "wwan0" then .ok (1, "") else .ok (0, "inet 10.0.0.5/24")
    pingRc := .ok 1 }

/-- Rotation environment whose disconnect phase fails. -/
def rotEnvDiscFail : RotEnv :=
  { probes := fun _ => probeDown
    disc := discEnvFail
    conn := connEnvFail
    settleSleepRaises := none
    nowIso := "2024-01-01T00:00:00" }

/-- Rotation environment whose disconnect succeeds and whose connect phase
fails. -/
def rotEnvConnFail : RotEnv :=
  { rotEnvDiscFail with disc := discEnvNoModem }

/-- Rotation environment whose disconnect and connect both succeed while the
host never regains reachability. -/
def rotEnvOk : RotEnv :=
  { rotEnvConnFail with conn := connEnvOk }

/-- Rotation environment where the settle sleep is interrupted by a raised
exception. -/
def rotEnvRaise : RotEnv :=
  { rotEnvConnFail with settleSleepRaises := some "InterruptedError" }

/-- User configuration enabling aggressive rotation without overriding the
reset delay. -/
def userAggressive : List (String × JVal) := [("aggressive_rotation", JVal.bool true)]

/-- Two callers both waiting on the free lock. -/
def lockBothWaiting : LockSys :=
  { t1 := ThreadPhase.waiting, t2 := ThreadPhase.waiting, holder := none }

/-- Erase the `nm_device` field of a status result: the part of the status
that carries the configured device name, as opposed to everything that is
probed. -/
def stripNmDevice : StatusResult → StatusResult
  | .ok s => .ok { s with nm_device := JVal.str "" }
  | .err e => .err e

/-!
Theorems.
-/

/-- C1 counterexample: on a host whose `lsusb` shows no known modem, the
disconnect succeeds after invoking only the rfkill kill-switch; the trace
does not satisfy the ordered fallback chain claimed by the specification,
which would have attempted the management-daemon disconnect first. -/
theorem disconnect_chain_counterexample :
    disconnect_modem discEnvNoModem = (true, [Mechanism.rfkillBlock])
    ∧ ¬ specDisconnectChain [Mechanism.rfkillBlock] := by
  constructor
  · rfl
  · rintro ⟨last, k, _, hk, htr⟩
    rcases k with _ | k
    · omega
    · rw [List.take_succ_cons] at htr
      simp at htr

/-- C1 (amended): the disconnect operation uses only the last-resort
mechanisms.  Its mechanism trace is empty (discovery raised), the single
rfkill block (modem or its sysfs path not found), or the single USB
de-authorization; the management-daemon, connection-manager, and
interface-down mechanisms are never attempted. -/
theorem disconnect_only_last_resort (env : DiscEnv) :
    ((disconnect_modem env).2 = []
      ∨ (disconnect_modem env).2 = [Mechanism.rfkillBlock]
      ∨ (disconnect_modem env).2 = [Mechanism.usbDeauth])
    ∧ Mechanism.mmDisconnect ∉ (disconnect_modem env).2
    ∧ Mechanism.nmDeviceDisconnect ∉ (disconnect_modem env).2
    ∧ Mechanism.ifaceDown ∉ (disconnect_modem env).2 := by
  cases h1 : env.lsusbStdout with
  | error e => simp [disconnect_modem, h1]
  | ok out =>
    cases h2 : scanLsusb (pySplitOn out "\n") with
    | raised => simp [disconnect_modem, h1, h2]
    | notFound =>
      cases h3 : env.rfkillBlockRc with
      | error e => simp [disconnect_modem, h1, h2, h3]
      | ok rc => simp [disconnect_modem, h1, h2, h3]
    | found vp =>
      cases h4 : find_usb_modem_path env.fs vp with
      | none =>
        cases h3 : env.rfkillBlockRc with
        | error e => simp [disconnect_modem, h1, h2, h4, h3]
        | ok rc => simp [disconnect_modem, h1, h2, h4, h3]
      | some p =>
        cases h5 : env.authWriteRc (p ++ "/authorized") with
        | error e => simp [disconnect_modem, h1, h2, h4, h5]
        | ok rc => simp [disconnect_modem, h1, h2, h4, h5]

/-- The poll loop never runs past its time budget. -/
lemma pollLoop_le (reach : Nat → Bool) :
    ∀ fuel start, pollLoop reach start fuel ≤ start + fuel := by
  intro fuel
  induction fuel with
  | zero => intro start; simp [pollLoop]
  | succ n ih =>
    intro start
    simp only [pollLoop]
    split
    · omega
    · have := ih (start + 1); omega

/-- The poll loop only moves forward in time. -/
lemma pollLoop_ge (reach : Nat → Bool) :
    ∀ fuel start, start ≤ pollLoop reach start fuel := by
  intro fuel
  induction fuel with
  | zero => intro start; simp [pollLoop]
  | succ n ih =>
    intro start
    simp only [pollLoop]
    split
    · omega
    · have := ih (start + 1); omega

/-- No poll before the exit time observed reachability: the loop does not
run past the first reachable poll. -/
lemma pollLoop_no_reach_before (reach : Nat → Bool) :
    ∀ fuel start t, start < t → t < pollLoop reach start fuel → reach t = false := by
  intro fuel
  induction fuel with
  | zero =>
    intro start t h1 h2
    simp [pollLoop] at h2
    omega
  | succ n ih =>
    intro start t h1 h2
    simp only [pollLoop] at h2
    by_cases hr : reach (start + 1)
    · simp [hr] at h2; omega
    · simp [hr] at h2
      rcases Nat.lt_or_ge t (start + 2) with hlt | hge
      · have ht : t = start + 1 := by omega
        subst ht
        exact Bool.eq_false_iff.mpr hr
      · exact ih (start + 1) t (by omega) h2

/-- When the poll loop exits before the budget is spent, the exit poll
observed reachability. -/
lemma pollLoop_reach_at_exit (reach : Nat → Bool) :
    ∀ fuel start, pollLoop reach start fuel < start + fuel →
      reach (pollLoop reach start fuel) = true := by
  intro fuel
  induction fuel with
  | zero =>
    intro start h
    simp [pollLoop] at h
  | succ n ih =>
    intro start h
    simp only [pollLoop] at h ⊢
    by_cases hr : reach (start + 1)
    · simp [hr]
    · simp [hr] at h ⊢
      exact ih (start + 1) (by omega)

/-- One rotation cycle changes the counter by exactly the success bit: every
failure branch of `rotate_connection` returns the state unchanged, and the
success branch increments the counter once. -/
lemma rotate_count_step (cfg : String → Option JVal) (env : RotEnv) (st : RotState) :
    (rotate_connection cfg env st).2.rotation_count
      = st.rotation_count
        + (if (rotate_connection cfg env st).1.success then 1 else 0) := by
  cases hd : (disconnect_modem env.disc).1 with
  | false => simp [rotate_connection, hd, RotResult.success]
  | true =>
    cases hs : settlePhase cfg env.settleSleepRaises with
    | error e => simp [rotate_connection, hd, hs, RotResult.success]
    | ok u =>
      cases hc : connect_modem env.conn with
      | false => simp [rotate_connection, hd, hs, hc, RotResult.success]
      | true =>
        cases ht : cfg "reconnect_timeout" with
        | none => simp [rotate_connection, hd, hs, hc, ht, RotResult.success]
        | some tv =>
          cases hv : tv.sleepSeconds with
          | none => simp [rotate_connection, hd, hs, hc, ht, hv, RotResult.success]
          | some timeout =>
            simp [rotate_connection, hd, hs, hc, ht, hv, RotResult.success]

/-- C4: the rotation counter moves by exactly the success bit of each cycle
and is monotonically non-decreasing over every sequence of serialized
`rotate_connection` calls; it never decrements. -/
theorem rotation_count_monotone_exact (cfg : String → Option JVal) (env : RotEnv)
    (st : RotState) (envs : List RotEnv) :
    (rotate_connection cfg env st).2.rotation_count
      = st.rotation_count
        + (if (rotate_connection cfg env st).1.success then 1 else 0)
    ∧ st.rotation_count ≤ (runRotations cfg envs st).rotation_count := by
  refine ⟨rotate_count_step cfg env st, ?_⟩
  induction envs generalizing st with
  | nil => simp [runRotations]
  | cons e es ih =>
    have h1 := rotate_count_step cfg e st
    have h2 := ih (rotate_connection cfg e st).2
    have hle : st.rotation_count ≤ (rotate_connection cfg e st).2.rotation_count := by
      rw [h1]; split <;> omega
    simp only [runRotations]
    omega

/-- C2: when the disconnect phase fails, the rotation returns the structured
failure with error text `Failed to disconnect modem` and the initial status
snapshot, and leaves the rotation counter and the last-rotation timestamp
unchanged. -/
theorem rotate_disconnect_fail_frame (cfg : String → Option JVal) (env : RotEnv)
    (st : RotState) (h : (disconnect_modem env.disc).1 = false) :
    rotate_connection cfg env st
      = (RotResult.fail "Failed to disconnect modem"
          (get_connection_status cfg st (env.probes 0)), st) := by
  simp [rotate_connection, h]

/-- C2 witness: a concrete run whose disconnect chain is exhausted. -/
theorem rotate_disconnect_fail_frame_witness :
    rotate_connection cfgBase rotEnvDiscFail stInit
      = (RotResult.fail "Failed to disconnect modem"
          (get_connection_status cfgBase stInit (rotEnvDiscFail.probes 0)), stInit) :=
  rotate_disconnect_fail_frame cfgBase rotEnvDiscFail stInit rfl

/-- C5: when the disconnect phase succeeds (and the settle sleep completes)
but the connect phase fails, the rotation returns the structured failure with
error text `Failed to reconnect modem` and a fresh status snapshot, and
leaves the rotation counter and the last-rotation timestamp unchanged. -/
theorem rotate_connect_fail_frame (cfg : String → Option JVal) (env : RotEnv)
    (st : RotState)
    (h1 : (disconnect_modem env.disc).1 = true)
    (h2 : settlePhase cfg env.settleSleepRaises = .ok ())
    (h3 : connect_modem env.conn = false) :
    rotate_connection cfg env st
      = (RotResult.fail "Failed to reconnect modem"
          (get_connection_status cfg st (env.probes 1)), st) := by
  simp [rotate_connection, h1, h2, h3]

/-- C5 witness: a concrete run where disconnect succeeds via rfkill and the
connect attempt fails. -/
theorem rotate_connect_fail_frame_witness :
    rotate_connection cfgBase rotEnvConnFail stInit
      = (RotResult.fail "Failed to reconnect modem"
          (get_connection_status cfgBase stInit (rotEnvConnFail.probes 1)), stInit) :=
  rotate_connect_fail_frame cfgBase rotEnvConnFail stInit rfl rfl rfl

/-- C3: when disconnect and connect both succeed, the verification poll loop
exits at the earlier of the first poll observing reachability and the
configured reconnect timeout; the cycle is reported successful regardless,
and the final status in the result is the snapshot taken at poll exit (with
the updated tracking state). -/
theorem rotate_verify_poll_spec (cfg : String → Option JVal) (env : RotEnv)
    (st : RotState) (tv : JVal) (timeout : Nat)
    (h1 : (disconnect_modem env.disc).1 = true)
    (h2 : settlePhase cfg env.settleSleepRaises = .ok ())
    (h3 : connect_modem env.conn = true)
    (h4 : cfg "reconnect_timeout" = some tv)
    (h5 : tv.sleepSeconds = some timeout) :
    pollLoop (pollReach cfg env st) 0 timeout ≤ timeout
    ∧ (∀ t, 1 ≤ t → t < pollLoop (pollReach cfg env st) 0 timeout →
        pollReach cfg env st t = false)
    ∧ (pollLoop (pollReach cfg env st) 0 timeout < timeout →
        pollReach cfg env st (pollLoop (pollReach cfg env st) 0 timeout) = true)
    ∧ (rotate_connection cfg env st).1.success = true
    ∧ rotate_connection cfg env st
        = (RotResult.ok "Connection rotated successfully"
            (get_connection_status cfg st (env.probes 0))
            (get_connection_status cfg
              { last_rotation := some env.nowIso
                rotation_count := st.rotation_count + 1 }
              (env.probes (pollLoop (pollReach cfg env st) 0 timeout + 1)))
            env.nowIso (st.rotation_count + 1),
           { last_rotation := some env.nowIso
             rotation_count := st.rotation_count + 1 }) := by
  refine ⟨?_, ?_, ?_, ?_, ?_⟩
  · have := pollLoop_le (pollReach cfg env st) timeout 0
    omega
  · intro t ht1 ht2
    exact pollLoop_no_reach_before (pollReach cfg env st) timeout 0 t (by omega) ht2
  · intro hlt
    exact pollLoop_reach_at_exit (pollReach cfg env st) timeout 0 (by omega)
  · simp [rotate_connection, h1, h2, h3, h4, h5, RotResult.success]
  · simp [rotate_connection, h1, h2, h3, h4, h5]

/-- C3 witness: a concrete cycle where both phases succeed and reachability
is never observed, so the poll loop runs to the configured 8 second timeout
and the cycle is still reported successful. -/
theorem rotate_verify_poll_spec_witness :
    pollLoop (pollReach cfgBase rotEnvOk stInit) 0 8 ≤ 8
    ∧ (rotate_connection cfgBase rotEnvOk stInit).1.success = true
    ∧ pollLoop (pollReach cfgBase rotEnvOk stInit) 0 8 = 8 :=
  ⟨(rotate_verify_poll_spec cfgBase rotEnvOk stInit (JVal.nat 8) 8
      rfl rfl rfl rfl rfl).1,
   (rotate_verify_poll_spec cfgBase rotEnvOk stInit (JVal.nat 8) 8
      rfl rfl rfl rfl rfl).2.2.2.1,
   rfl⟩

/-- An exception injected into the settle sleep always reaches the outer
exception handler of `rotate_connection` as an error. -/
lemma settlePhase_raises (cfg : String → Option JVal) (e : String) :
    ∃ msg, settlePhase cfg (some e) = .error msg := by
  cases hs : settleDelayValue cfg with
  | error m => exact ⟨m, by simp [settlePhase, hs]⟩
  | ok v =>
    cases hv : v.sleepSeconds with
    | none => exact ⟨"TypeError: sleep", by simp [settlePhase, hs, hv]⟩
    | some n => exact ⟨e, by simp [settlePhase, hs, hv]⟩

/-- C6: POST `/rotate` always answers with HTTP status 200 and the structured
result of the rotation as its body, so a cycle failure is surfaced only as a
`success: false` body; a raised exception during the cycle is caught and
turned into a failure result that leaves the tracking state unchanged, so no
error is fatal to the serving process. -/
theorem rotate_endpoint_structured_failure (cfg : String → Option JVal)
    (env : RotEnv) (st : RotState) :
    (do_POST "/rotate" cfg env st).1.code = 200
    ∧ (do_POST "/rotate" cfg env st).1.body
        = HttpBody.rotation (rotate_connection cfg env st).1
    ∧ (∀ e, env.settleSleepRaises = some e →
        (rotate_connection cfg env st).1.success = false
        ∧ (do_POST "/rotate" cfg env st).2 = st) := by
  refine ⟨by simp [do_POST], by simp [do_POST], ?_⟩
  intro e he
  cases hd : (disconnect_modem env.disc).1 with
  | false =>
    exact ⟨by simp [rotate_connection, hd, RotResult.success],
      by simp [do_POST, rotate_connection, hd]⟩
  | true =>
    obtain ⟨msg, hmsg⟩ := settlePhase_raises cfg e
    rw [← he] at hmsg
    exact ⟨by simp [rotate_connection, hd, hmsg, RotResult.success],
      by simp [do_POST, rotate_connection, hd, hmsg]⟩

/-- C6 witness: a concrete request whose rotation is interrupted by a raised
exception still gets HTTP 200 and a failure body, and the state is kept. -/
theorem rotate_endpoint_structured_failure_witness :
    (do_POST "/rotate" cfgBase rotEnvRaise stInit).1.code = 200
    ∧ (rotate_connection cfgBase rotEnvRaise stInit).1.success = false
    ∧ (do_POST "/rotate" cfgBase rotEnvRaise stInit).2 = stInit :=
  ⟨(rotate_endpoint_structured_failure cfgBase rotEnvRaise stInit).1,
   ((rotate_endpoint_structured_failure cfgBase rotEnvRaise stInit).2.2
      "InterruptedError" rfl).1,
   ((rotate_endpoint_structured_failure cfgBase rotEnvRaise stInit).2.2
      "InterruptedError" rfl).2⟩

/-- The lock invariant holds in every reachable state. -/
lemma lockInv_reachable {s : LockSys} (h : LockReachable s) : LockInv s := by
  induction h with
  | init => simp [LockInv, lockInit]
  | step hr hstep ih =>
    rcases ih with ⟨ih1, ih2⟩
    cases hstep <;> simp_all [LockInv]

/-- C7: at most one `rotate_connection` body executes at a time (two threads
are never simultaneously inside the section guarded by `self.lock`), and a
waiting caller is never rejected: from the waiting phase the only moves are
to keep waiting or to enter the rotation body, the latter only while no
thread holds the lock. -/
theorem rotate_mutual_exclusion :
    (∀ s, LockReachable s →
        ¬(s.t1 = ThreadPhase.inCritical ∧ s.t2 = ThreadPhase.inCritical))
    ∧ (∀ s s', LockStep s s' → s.t1 = ThreadPhase.waiting →
        s'.t1 = ThreadPhase.waiting
          ∨ (s'.t1 = ThreadPhase.inCritical ∧ s.holder = none))
    ∧ (∀ s s', LockStep s s' → s.t2 = ThreadPhase.waiting →
        s'.t2 = ThreadPhase.waiting
          ∨ (s'.t2 = ThreadPhase.inCritical ∧ s.holder = none)) := by
  refine ⟨?_, ?_, ?_⟩
  · rintro s hs ⟨h1, h2⟩
    obtain ⟨i1, i2⟩ := lockInv_reachable hs
    have e1 := i1.mp h1
    have e2 := i2.mp h2
    rw [e1] at e2
    simp at e2
  · intro s s' hstep hw
    cases hstep <;> simp_all
  · intro s s' hstep hw
    cases hstep <;> simp_all

/-- C7 witness: mutual exclusion instantiated at the initial state, and the
blocking property instantiated at a state where both callers wait and one
acquires the free lock. -/
theorem rotate_mutual_exclusion_witness :
    (¬(lockInit.t1 = ThreadPhase.inCritical ∧ lockInit.t2 = ThreadPhase.inCritical))
    ∧ (({ lockBothWaiting with
            t1 := ThreadPhase.inCritical, holder := some 0 } : LockSys).t1
          = ThreadPhase.waiting
        ∨ (({ lockBothWaiting with
                t1 := ThreadPhase.inCritical, holder := some 0 } : LockSys).t1
              = ThreadPhase.inCritical
            ∧ lockBothWaiting.holder = none))
    ∧ (({ lockBothWaiting with
            t2 := ThreadPhase.inCritical, holder := some 1 } : LockSys).t2
          = ThreadPhase.waiting
        ∨ (({ lockBothWaiting with
                t2 := ThreadPhase.inCritical, holder := some 1 } : LockSys).t2
              = ThreadPhase.inCritical
            ∧ lockBothWaiting.holder = none)) :=
  ⟨rotate_mutual_exclusion.1 lockInit LockReachable.init,
   rotate_mutual_exclusion.2.1 lockBothWaiting _ (LockStep.acquire1 rfl rfl) rfl,
   rotate_mutual_exclusion.2.2 lockBothWaiting _ (LockStep.acquire2 rfl rfl) rfl⟩

/-- A hit of `firstSome` comes from some list element. -/
lemma firstSome_eq_some {α β : Type} {f : α → Option β} {l : List α} {b : β}
    (h : firstSome f l = some b) : ∃ a, a ∈ l ∧ f a = some b := by
  induction l with
  | nil => exact Option.noConfusion h
  | cons x xs ih =>
    simp only [firstSome] at h
    cases hf : f x with
    | some r =>
      rw [hf] at h
      exact ⟨x, by simp, by rw [hf, Option.some.inj h]⟩
    | none =>
      rw [hf] at h
      obtain ⟨a, ha, hfa⟩ := ih h
      exact ⟨a, by simp [ha], hfa⟩

/-- `firstSome` over a function with no hits misses. -/
lemma firstSome_none {α β : Type} {f : α → Option β} (hf : ∀ a, f a = none) :
    ∀ l, firstSome f l = none
  | [] => rfl
  | x :: xs => by simp [firstSome, hf x, firstSome_none hf xs]

/-- Every path returned by the shared per-device check exposes an
`authorized` file. -/
lemma checkLikelyDevice_auth {fs : UsbFs} {vid pid dn p : String}
    (h : checkLikelyDevice fs vid pid dn = some p) :
    fs.pathExists (p ++ "/authorized") = true := by
  simp only [checkLikelyDevice] at h
  repeat' split at h
  all_goals first
    | exact Option.noConfusion h
    | (obtain rfl := Option.some.inj h; assumption)

/-- Every path returned by the method-2 per-file check exposes an
`authorized` file (either the device directory or its parent). -/
lemma checkVendorFile_auth {fs : UsbFs} {vid pid vf p : String}
    (h : checkVendorFile fs vid pid vf = some p) :
    fs.pathExists (p ++ "/authorized") = true := by
  simp only [checkVendorFile] at h
  repeat' split at h
  all_goals first
    | exact Option.noConfusion h
    | (obtain rfl := Option.some.inj h; assumption)

/-- Every path returned by the method-3 line scan exposes an `authorized`
file. -/
lemma scanLsLine_auth {fs : UsbFs} {vid pid line p : String}
    (h : scanLsLine fs vid pid line = some p) :
    fs.pathExists (p ++ "/authorized") = true := by
  simp only [scanLsLine] at h
  repeat' split at h
  all_goals first
    | exact Option.noConfusion h
    | exact checkLikelyDevice_auth h

/-- Every path returned by `find_usb_modem_path` exposes an `authorized`
file. -/
lemma find_usb_auth {fs : UsbFs} {vp p : String}
    (h : find_usb_modem_path fs vp = some p) :
    fs.pathExists (p ++ "/authorized") = true := by
  simp only [find_usb_modem_path] at h
  split at h
  · exact Option.noConfusion h
  · split at h
    · rename_i p1 hp1
      obtain rfl := Option.some.inj h
      obtain ⟨a, _, hfa⟩ := firstSome_eq_some hp1
      exact checkLikelyDevice_auth hfa
    · split at h
      · exact Option.noConfusion h
      · split at h
        · rename_i p2 hp2
          obtain rfl := Option.some.inj h
          obtain ⟨a, _, hfa⟩ := firstSome_eq_some hp2
          exact checkVendorFile_auth hfa
        · split at h
          · exact Option.noConfusion h
          · split at h
            · rename_i p3 hp3
              obtain rfl := Option.some.inj h
              obtain ⟨a, _, hfa⟩ := firstSome_eq_some hp3
              exact scanLsLine_auth hfa
            · exact Option.noConfusion h

/-- When every sysfs read raises, the per-device check misses. -/
lemma checkLikelyDevice_none (fs : UsbFs) (vid pid dn : String)
    (hr : ∀ q, ∃ e, fs.readFile q = Except.error e) :
    checkLikelyDevice fs vid pid dn = none := by
  obtain ⟨e, he⟩ := hr ("/sys/bus/usb/devices/" ++ dn ++ "/idVendor")
  simp [checkLikelyDevice, he]

/-- When every sysfs read raises, the method-2 per-file check misses. -/
lemma checkVendorFile_none (fs : UsbFs) (vid pid vf : String)
    (hr : ∀ q, ∃ e, fs.readFile q = Except.error e) :
    checkVendorFile fs vid pid vf = none := by
  obtain ⟨e, he⟩ := hr vf
  simp [checkVendorFile, he]

/-- When every sysfs read raises, the method-3 line scan misses. -/
lemma scanLsLine_none (fs : UsbFs) (vid pid line : String)
    (hr : ∀ q, ∃ e, fs.readFile q = Except.error e) :
    scanLsLine fs vid pid line = none := by
  simp only [scanLsLine]
  repeat' split
  all_goals first
    | rfl
    | exact checkLikelyDevice_none fs vid pid _ hr

/-- When every sysfs read raises (unpopulated registry), the search degrades
to not-found. -/
lemma find_usb_none {fs : UsbFs} {vp : String}
    (hr : ∀ q, ∃ e, fs.readFile q = Except.error e) :
    find_usb_modem_path fs vp = none := by
  simp only [find_usb_modem_path]
  split
  · rfl
  · rename_i pr vid pid heq
    have h1 : ∀ l, firstSome (checkLikelyDevice fs vid pid) l = none :=
      firstSome_none (fun dn => checkLikelyDevice_none fs vid pid dn hr)
    have h2 : ∀ l, firstSome (checkVendorFile fs vid pid) l = none :=
      firstSome_none (fun vf => checkVendorFile_none fs vid pid vf hr)
    have h3 : ∀ l, firstSome (scanLsLine fs vid pid) l = none :=
      firstSome_none (fun line => scanLsLine_none fs vid pid line hr)
    cases fs.findStdout with
    | error e => simp [h1]
    | ok out =>
      cases fs.lsStdout with
      | error e => simp [h1, h2]
      | ok ls => simp [h1, h2, h3]

/-- C8: `find_usb_modem_path` returns a device path only when that path
exposes an `authorized` control file, and on an unpopulated or unreadable
registry it degrades to not-found instead of raising (the outer handler in
the source catches every exception and returns `None`). -/
theorem find_usb_auth_and_degrades (fs : UsbFs) (vendor_product : String) :
    (∀ p, find_usb_modem_path fs vendor_product = some p →
        fs.pathExists (p ++ "/authorized") = true)
    ∧ ((∀ q, ∃ e, fs.readFile q = Except.error e) →
        find_usb_modem_path fs vendor_product = none) :=
  ⟨fun _ h => find_usb_auth h, fun hr => find_usb_none hr⟩

/-- C8 witness: on a concrete populated sysfs the returned path exposes the
`authorized` file, and on a fully unreadable registry the search returns
not-found. -/
theorem find_usb_auth_and_degrades_witness :
    fsSample.pathExists ("/sys/bus/usb/devices/1-1.2" ++ "/authorized") = true
    ∧ find_usb_modem_path fsEmptyReg "1e0e:9001" = none :=
  ⟨(find_usb_auth_and_degrades fsSample "1e0e:9001").1
      "/sys/bus/usb/devices/1-1.2" rfl,
   (find_usb_auth_and_degrades fsEmptyReg "1e0e:9001").2
      (fun _ => ⟨"FileNotFoundError", rfl⟩)⟩

/-- C9: under a truthy aggressive-rotation flag the settle delay is the
configured `modem_reset_delay` value; that key is present in the effective
configuration for every user configuration (so the `10` fallback written at
the lookup site is never used), and when the user configuration does not
override it, the delay is the built-in 1 second. -/
theorem aggressive_settle_delay (user : List (String × JVal))
    (hagg : (((effConfig user) "aggressive_rotation").getD (JVal.bool false)).truthy
        = true) :
    settleDelayValue (effConfig user)
        = .ok (((effConfig user) "modem_reset_delay").getD (JVal.nat 10))
    ∧ (∃ v, (effConfig user) "modem_reset_delay" = some v
        ∧ ((effConfig user) "modem_reset_delay").getD (JVal.nat 10) = v)
    ∧ (dictGet user "modem_reset_delay" = none →
        ((effConfig user) "modem_reset_delay").getD (JVal.nat 10) = JVal.nat 1) := by
  have hbase : dictGet baseConfig "modem_reset_delay" = some (JVal.nat 1) := rfl
  refine ⟨by simp [settleDelayValue, hagg], ?_, ?_⟩
  · cases hu : dictGet user "modem_reset_delay" with
    | some v =>
      exact ⟨v, by simp [effConfig, hu, Option.orElse],
        by simp [effConfig, hu, Option.orElse]⟩
    | none =>
      exact ⟨JVal.nat 1, by simp [effConfig, hu, hbase, Option.orElse],
        by simp [effConfig, hu, hbase, Option.orElse]⟩
  · intro hnone
    simp [effConfig, hnone, hbase, Option.orElse]

/-- C9 witness: with aggressive rotation enabled and no user override, the
settle delay evaluates to the built-in 1 second, not the 10 second
fallback. -/
theorem aggressive_settle_delay_witness :
    settleDelayValue (effConfig userAggressive)
        = .ok (((effConfig userAggressive) "modem_reset_delay").getD (JVal.nat 10))
    ∧ ((effConfig userAggressive) "modem_reset_delay").getD (JVal.nat 10)
        = JVal.nat 1 :=
  ⟨(aggressive_settle_delay userAggressive rfl).1,
   (aggressive_settle_delay userAggressive rfl).2.2 rfl⟩

/-- C10: the status probe runs entirely against the hardcoded interface
`wwan0`: two probe environments agreeing on `wwan0` yield the same status up
to the `nm_device` field, for any two configured interface values; and any
successful status reports `wwan0` as the probed interface and carries the
configured value only in `nm_device`. -/
theorem status_probes_wwan0 (cfg cfg' : String → Option JVal) (st : RotState)
    (env env' : ProbeEnv) (v v' : JVal)
    (h1 : env.ipLink "wwan0" = env'.ipLink "wwan0")
    (h2 : env.ipAddr "wwan0" = env'.ipAddr "wwan0")
    (h3 : env.pingRc = env'.pingRc)
    (h4 : cfg "interface" = some v) (h5 : cfg' "interface" = some v') :
    stripNmDevice (get_connection_status cfg st env)
      = stripNmDevice (get_connection_status cfg' st env')
    ∧ (∀ s, get_connection_status cfg st env = StatusResult.ok s →
        s.iface = "wwan0" ∧ s.nm_device = v) := by
  have hfetch : ∀ up, ipFetch env "wwan0" up = ipFetch env' "wwan0" up := by
    intro up; simp [ipFetch, h2]
  constructor
  · simp only [get_connection_status, h1, h3, h4, h5, hfetch]
    cases env'.ipLink "wwan0" with
    | error e => simp [stripNmDevice]
    | ok lr =>
      cases hip : ipFetch env' "wwan0" (lr.1 == 0 && strContains lr.2 "UP") with
      | error e => simp [hip, stripNmDevice]
      | ok ip => simp [hip, stripNmDevice]
  · intro s hs
    simp only [get_connection_status, h4] at hs
    cases hl : env.ipLink "wwan0" with
    | error e =>
      simp only [hl] at hs
      exact StatusResult.noConfusion hs
    | ok lr =>
      simp only [hl] at hs
      cases hf : ipFetch env "wwan0" (lr.1 == 0 && strContains lr.2 "UP") with
      | error e =>
        simp only [hf] at hs
        exact StatusResult.noConfusion hs
      | ok ip =>
        simp only [hf] at hs
        obtain rfl := StatusResult.ok.inj hs
        exact ⟨rfl, rfl⟩

/-- C10 witness: a probe environment differing from `probeDown` only away
from `wwan0`, paired with a different configured device name, yields the same
status up to `nm_device`; the concrete successful status probed `wwan0`. -/
theorem status_probes_wwan0_witness :
    stripNmDevice (get_connection_status cfgBase stInit probeOffWwan)
      = stripNmDevice (get_connection_status
          (effConfig [("interface", JVal.str "other0")]) stInit probeDown) :=
  (status_probes_wwan0 cfgBase (effConfig [("interface", JVal.str "other0")])
    stInit probeOffWwan probeDown (JVal.str "cdc-wdm0") (JVal.str "other0")
    rfl rfl rfl rfl rfl).1

end Rotator
